import Mathlib

/-!
Shallow embedding of the SD-Core AUSF charmed operator (src/charm.py) and
verification of the specification's claims about it.

The charm's interaction with its environment (the workload container's
filesystem, the Pebble process supervisor, Juju relation data, the pod IP
resolver) is modelled as an explicit `World` state; each Python event handler
becomes a pure function `World -> World x Effects`, where `Effects` records the
observable actions of one pass (event deferral, service restart, layer
application, unit status, certificate-creation requests).  File paths are the
fixed constants of the source, so the container filesystem is a record with one
`Option String` field per managed file (bytes are modelled as `String`;
`decode` is the identity).  The nondeterministic key/CSR generation primitives
are modelled by passing the freshly generated value as an argument.
-/

namespace AusfCharm

/-- Constant `AUSF_GROUP_ID` from charm.py. -/
def AUSF_GROUP_ID : String := "ausfGroup001"

/-- Constant `SBI_PORT` from charm.py. -/
def SBI_PORT : Nat := 29509

/-- One Pebble service entry, as built by `_pebble_layer` (fields `override`,
`startup`, `command`, `environment`).  The environment maps variable names to
optional values because `POD_IP` is set to the possibly-absent pod IP. -/
structure ServiceSpec where
  override : String
  startup : String
  command : String
  environment : List (String × Option String)
deriving DecidableEq

/-- The state of the workload container: reachability (`can_connect`), the
managed files at their fixed paths, whether the config-directory storage is
attached (`exists(CONFIG_DIR)`), and the Pebble plan's entry for the single
managed service `ausf` (`get_plan().services`; `none` = no entry yet). -/
structure ContainerState where
  canConnect : Bool
  privateKey : Option String
  csr : Option String
  certificate : Option String
  configFile : Option String
  storageAttached : Bool
  planServices : Option ServiceSpec
deriving DecidableEq

/-- The world observed by one reconciliation pass: the container, whether the
`fiveg_nrf` relation exists, the NRF URL published over it (`""` = not yet
available, matching Python truthiness of `nrf_url`), and the pod IP. -/
structure World where
  container : ContainerState
  nrfRelationCreated : Bool
  nrfUrl : String
  podIp : Option String
deriving DecidableEq

/-- Unit status as set by the charm (`ActiveStatus`, `WaitingStatus`,
`BlockedStatus`). -/
inductive Status where
  | active : Status
  | waiting (msg : String) : Status
  | blocked (msg : String) : Status
deriving DecidableEq

/-- Result of the ordered precondition gate inside `_configure_ausf`:
proceed, defer the event and wait, or block without deferring. -/
inductive GateResult where
  | proceed : GateResult
  | deferRetry (msg : String) : GateResult
  | block (msg : String) : GateResult
deriving DecidableEq

/-- Names of the five readiness checks of `_configure_ausf`, used to record
which checks a pass actually evaluated. -/
inductive Check where
  | containerReachable : Check
  | relationExists : Check
  | nrfData : Check
  | storage : Check
  | podAddress : Check
deriving DecidableEq

/-- Observable actions of one handler invocation: whether the triggering event
was deferred, whether the service was restarted, whether a Pebble layer was
applied, the unit status set (if any), and the CSRs sent to the certificate
authority via `request_certificate_creation`. -/
structure Effects where
  deferred : Bool := false
  restarted : Bool := false
  layerAdded : Bool := false
  status : Option Status := none
  certRequests : List String := []
deriving DecidableEq

/-- Source `_private_key_is_stored`. -/
def privateKeyIsStored (c : ContainerState) : Bool :=
  c.privateKey.isSome

/-- Source `_csr_is_stored`. -/
def csrIsStored (c : ContainerState) : Bool :=
  c.csr.isSome

/-- Source `_certificate_is_stored`. -/
def certificateIsStored (c : ContainerState) : Bool :=
  c.certificate.isSome

/-- Source `_delete_private_key`: no-op when no key is stored, else remove it. -/
def deletePrivateKey (c : ContainerState) : ContainerState :=
  if ¬ privateKeyIsStored c then c
  else { c with privateKey := none }

/-- Source `_delete_csr`: no-op when no CSR is stored, else remove it. -/
def deleteCsr (c : ContainerState) : ContainerState :=
  if ¬ csrIsStored c then c
  else { c with csr := none }

/-- Source `_delete_certificate`: no-op when no certificate is stored, else remove
it. -/
def deleteCertificate (c : ContainerState) : ContainerState :=
  if ¬ certificateIsStored c then c
  else { c with certificate := none }

/-- The TLS scheme chosen in `_apply_ausf_config` (line 258):
`"https" if self._certificate_is_stored() else "http"`. -/
def configScheme (c : ContainerState) : String :=
  if certificateIsStored c then "https" else "http"

/-- Modelled from the spec: the external template renderer
(`_render_config_file` delegates to Jinja2 with `src/templates/ausfcfg.conf.j2`,
which is not among the provided sources).  Per the spec it is a deterministic
pure function of the bindings {group id, AUSF IP, NRF URL, SBI port, scheme};
we realise it as a concrete injective encoding of those bindings. -/
def renderConfigFile (ausfGroupId ausfIp nrfUrl : String) (sbiPort : Nat)
    (scheme : String) : String :=
  "groupId: " ++ ausfGroupId ++ "\nausfIp: " ++ ausfIp ++ "\nnrfUrl: "
    ++ nrfUrl ++ "\nsbiPort: " ++ toString sbiPort ++ "\nscheme: " ++ scheme

/-- The configuration content `_apply_ausf_config` renders for the current
world: constants `AUSF_GROUP_ID` and `SBI_PORT`, the observed pod IP and NRF
URL, and the certificate-derived scheme. -/
def desiredConfigContent (w : World) : String :=
  renderConfigFile AUSF_GROUP_ID (w.podIp.getD "") w.nrfUrl SBI_PORT
    (configScheme w.container)

/-- Source `_config_file_content_matches`: pull the stored config file and compare it
byte-exactly with `content`; a `PathError` (file absent) yields `False`. -/
def configFileContentMatches (c : ContainerState) (content : String) : Bool :=
  match c.configFile with
  | some existing => existing == content
  | none => false

/-- Source `_apply_ausf_config`: render the config, and if the stored file does not
match byte-exactly, push the new content (`_push_config_file`,
`make_dirs=True`) and report `true`; otherwise report `false`. -/
def applyAusfConfig (w : World) : World × Bool :=
  let content := desiredConfigContent w
  if ¬ configFileContentMatches w.container content then
    ({ w with container := { w.container with configFile := some content } },
      true)
  else
    (w, false)

/-- Source `_ausf_environment_variables`. -/
def ausfEnvironmentVariables (podIp : Option String) :
    List (String × Option String) :=
  [("GOTRACEBACK", some "crash"),
   ("GRPC_GO_LOG_VERBOSITY_LEVEL", some "99"),
   ("GRPC_GO_LOG_SEVERITY_LEVEL", some "info"),
   ("GRPC_TRACE", some "all"),
   ("GRPC_VERBOSITY", some "DEBUG"),
   ("POD_IP", podIp),
   ("MANAGED_BY_CONFIG_POD", some "true")]

/-- Source `_pebble_layer`: the desired service entry for the `ausf` service. -/
def pebbleLayerServices (podIp : Option String) : ServiceSpec :=
  { override := "replace"
    startup := "enabled"
    command := "/bin/ausf --ausfcfg /free5gc/config/ausfcfg.conf"
    environment := ausfEnvironmentVariables podIp }

/-- Source `_configure_ausf_service`: compute the desired spec and the current plan;
if they differ or `force_restart` holds, apply the layer (`add_layer` with
`combine=True`, replacing the `ausf` entry) and restart the service.  Returns
the updated world together with (restarted, layerAdded). -/
def configureAusfService (w : World) (forceRestart : Bool) :
    World × Bool × Bool :=
  let newSpec := pebbleLayerServices w.podIp
  if w.container.planServices ≠ some newSpec ∨ forceRestart = true then
    ({ w with container := { w.container with planServices := some newSpec } },
      true, true)
  else
    (w, false, false)

/-- The ordered readiness ladder at the top of `_configure_ausf`, together
with the list of checks evaluated before it returned (the source's early
returns short-circuit the ladder). -/
def checkReadinessTrace (w : World) : GateResult × List Check :=
  if ¬ w.container.canConnect then
    (.deferRetry "Waiting for container to start", [.containerReachable])
  else if ¬ w.nrfRelationCreated then
    (.block "Waiting for fiveg_nrf relation",
      [.containerReachable, .relationExists])
  else if w.nrfUrl == "" then
    (.deferRetry "Waiting for NRF data to be available",
      [.containerReachable, .relationExists, .nrfData])
  else if ¬ w.container.storageAttached then
    (.deferRetry "Waiting for storage to be attached",
      [.containerReachable, .relationExists, .nrfData, .storage])
  else if w.podIp.isNone then
    (.deferRetry "Waiting for pod IP address to be available",
      [.containerReachable, .relationExists, .nrfData, .storage, .podAddress])
  else
    (.proceed,
      [.containerReachable, .relationExists, .nrfData, .storage, .podAddress])

/-- The gate result of `_configure_ausf`'s readiness ladder. -/
def checkReadiness (w : World) : GateResult :=
  (checkReadinessTrace w).1

/-- Source `_configure_ausf`: run the readiness ladder; on failure set the waiting or
blocked status (deferring the event on the waiting branches) and stop; on
success reconcile the config file, reconcile the service with
`force_restart := config_file_changed`, and set `ActiveStatus`. -/
def configureAusf (w : World) : World × Effects :=
  match checkReadiness w with
  | .deferRetry msg =>
      (w, { deferred := true, status := some (.waiting msg) })
  | .block msg =>
      (w, { status := some (.blocked msg) })
  | .proceed =>
      let r := applyAusfConfig w
      let s := configureAusfService r.1 r.2
      (s.1, { restarted := s.2.1, layerAdded := s.2.2,
              status := some .active })

/-- Source `_on_certificates_relation_created`: defer if the container is
unreachable; otherwise `_generate_private_key` generates a fresh key (passed
in as `freshKey`) and stores it — unconditionally, with no stored-key check. -/
def onCertificatesRelationCreated (w : World) (freshKey : String) :
    World × Effects :=
  if ¬ w.container.canConnect then
    (w, { deferred := true })
  else
    ({ w with container := { w.container with privateKey := some freshKey } },
      {})

/-- Python's `str.strip()` on the underlying character list: drop leading and
trailing whitespace. -/
def stripChars (l : List Char) : List Char :=
  ((l.dropWhile Char.isWhitespace).reverse.dropWhile Char.isWhitespace).reverse

/-- Python's `str.strip()`: remove leading and trailing whitespace. -/
def pyStrip (s : String) : String :=
  ⟨stripChars s.data⟩

/-- Source `_request_new_certificate`: generate a CSR (passed in as `freshCsr`),
store it via `_store_csr` (which pushes `csr.decode().strip()`), and request
certificate creation with the raw CSR bytes. -/
def requestNewCertificate (w : World) (freshCsr : String) : World × Effects :=
  ({ w with container := { w.container with csr := some (pyStrip freshCsr) } },
    { certRequests := [freshCsr] })

/-- Source `_on_certificates_relation_joined`: defer if the container is unreachable
or no private key is stored; otherwise request a new certificate. -/
def onCertificatesRelationJoined (w : World) (freshCsr : String) :
    World × Effects :=
  if ¬ w.container.canConnect then
    (w, { deferred := true })
  else if ¬ privateKeyIsStored w.container then
    (w, { deferred := true })
  else
    requestNewCertificate w freshCsr

/-- Source `_on_certificates_relation_broken`: defer if the container is unreachable;
otherwise delete the private key, the CSR and the certificate, then run the
full `_configure_ausf` pass. -/
def onCertificatesRelationBroken (w : World) : World × Effects :=
  if ¬ w.container.canConnect then
    (w, { deferred := true })
  else
    configureAusf
      { w with container :=
          deleteCertificate (deleteCsr (deletePrivateKey w.container)) }

/-- Source `_on_certificate_available`: defer if the container is unreachable; ignore
(with a warning) if no CSR is stored; ignore (with a debug log) if the event's
CSR differs from the stored one; otherwise store the event's certificate and
run the full `_configure_ausf` pass. -/
def onCertificateAvailable (w : World) (eventCsr eventCert : String) :
    World × Effects :=
  if ¬ w.container.canConnect then
    (w, { deferred := true })
  else if ¬ csrIsStored w.container then
    (w, {})
  else if some eventCsr ≠ w.container.csr then
    (w, {})
  else
    configureAusf
      { w with container := { w.container with certificate := some eventCert } }

/-- Source `_get_stored_certificate`: pull the certificate file; when the file is
absent, `Container.pull` raises `PathError`, which this handler does not
catch — modelled as `Except Unit`. -/
def getStoredCertificate (c : ContainerState) : Except Unit String :=
  match c.certificate with
  | some s => .ok s
  | none => .error ()

/-- Source `_on_certificate_expiring`: defer if the container is unreachable; compare
the event's certificate with `_get_stored_certificate()` (which raises when no
certificate is stored); on mismatch ignore with a debug log; on match request
a new certificate. -/
def onCertificateExpiring (w : World) (eventCert freshCsr : String) :
    Except Unit (World × Effects) :=
  if ¬ w.container.canConnect then
    .ok (w, { deferred := true })
  else
    match getStoredCertificate w.container with
    | .error e => .error e
    | .ok stored =>
        if eventCert ≠ stored then .ok (w, {})
        else .ok (requestNewCertificate w freshCsr)

/-- The world left behind by the teardown deletions of
`_on_certificates_relation_broken`. -/
def teardownWorld (w : World) : World :=
  { w with container :=
      deleteCertificate (deleteCsr (deletePrivateKey w.container)) }

/-- Sample container with every readiness fact true and nothing stored. -/
def emptyContainer : ContainerState :=
  { canConnect := true, privateKey := none, csr := none, certificate := none,
    configFile := none, storageAttached := true, planServices := none }

/-- Sample world in which every readiness check passes. -/
def readyWorld : World :=
  { container := emptyContainer, nrfRelationCreated := true,
    nrfUrl := "http://nrf:8080", podIp := some "1.2.3.4" }

/-- Sample world with an unreachable container and the NRF relation also
missing. -/
def unreachableWorld : World :=
  { container := { emptyContainer with canConnect := false },
    nrfRelationCreated := false, nrfUrl := "", podIp := none }

/-- Sample world: relation created but the NRF URL not yet published. -/
def noUrlWorld : World :=
  { container := emptyContainer, nrfRelationCreated := true, nrfUrl := "",
    podIp := some "1.2.3.4" }

/-- Sample world: container reachable but the NRF relation missing. -/
def noRelationWorld : World :=
  { container := emptyContainer, nrfRelationCreated := false,
    nrfUrl := "http://nrf:8080", podIp := some "1.2.3.4" }

/-- Sample world with a stored private key. -/
def keyStoredWorld : World :=
  { readyWorld with container :=
      { emptyContainer with privateKey := some "key-one" } }

/-- Sample world with a stored CSR. -/
def csrStoredWorld : World :=
  { readyWorld with container :=
      { emptyContainer with csr := some "csr-data" } }

/-- Sample world with private key, CSR and certificate all stored. -/
def fullTlsWorld : World :=
  { readyWorld with
      container :=
        { emptyContainer with
            privateKey := some "key-one"
            csr := some "csr-data"
            certificate := some "cert-pem" } }

theorem applyAusfConfig_planServices (w : World) :
    (applyAusfConfig w).1.container.planServices =
      w.container.planServices := by
  unfold applyAusfConfig
  dsimp only
  split <;> rfl

theorem applyAusfConfig_podIp (w : World) :
    (applyAusfConfig w).1.podIp = w.podIp := by
  unfold applyAusfConfig
  dsimp only
  split <;> rfl

theorem applyAusfConfig_nrfUrl (w : World) :
    (applyAusfConfig w).1.nrfUrl = w.nrfUrl := by
  unfold applyAusfConfig
  dsimp only
  split <;> rfl

theorem applyAusfConfig_certificate (w : World) :
    (applyAusfConfig w).1.container.certificate =
      w.container.certificate := by
  unfold applyAusfConfig
  dsimp only
  split <;> rfl

theorem applyAusfConfig_csr (w : World) :
    (applyAusfConfig w).1.container.csr = w.container.csr := by
  unfold applyAusfConfig
  dsimp only
  split <;> rfl

theorem applyAusfConfig_configFile_post (w : World) :
    (applyAusfConfig w).1.container.configFile =
      some (desiredConfigContent w) := by
  unfold applyAusfConfig
  dsimp only
  split
  · rfl
  · rename_i hc
    rw [not_not] at hc
    unfold configFileContentMatches at hc
    cases hfile : w.container.configFile with
    | none => rw [hfile] at hc; cases hc
    | some existing =>
        rw [hfile] at hc
        simp only [beq_iff_eq] at hc
        rw [hc]

theorem desiredConfigContent_applyAusfConfig (w : World) :
    desiredConfigContent (applyAusfConfig w).1 = desiredConfigContent w := by
  unfold desiredConfigContent configScheme certificateIsStored
  rw [applyAusfConfig_podIp, applyAusfConfig_nrfUrl, applyAusfConfig_certificate]

theorem configFileContentMatches_iff (c : ContainerState) (content : String) :
    configFileContentMatches c content = true ↔
      c.configFile = some content := by
  unfold configFileContentMatches
  cases c.configFile <;> simp

theorem configureAusfService_restarted (w : World) (f : Bool) :
    (configureAusfService w f).2.1 = true ↔
      (w.container.planServices ≠ some (pebbleLayerServices w.podIp) ∨
        f = true) := by
  unfold configureAusfService
  dsimp only
  split
  · rename_i hc
    simpa using hc
  · rename_i hc
    push_neg at hc
    simp [hc.1, hc.2]

theorem configureAusfService_planServices_post (w : World) (f : Bool) :
    (configureAusfService w f).1.container.planServices =
      some (pebbleLayerServices w.podIp) := by
  unfold configureAusfService
  dsimp only
  split
  · rfl
  · rename_i hc
    push_neg at hc
    exact hc.1

theorem configureAusfService_certificate (w : World) (f : Bool) :
    (configureAusfService w f).1.container.certificate =
      w.container.certificate := by
  unfold configureAusfService
  dsimp only
  split <;> rfl

theorem configureAusf_proceed (w : World)
    (h : checkReadiness w = GateResult.proceed) :
    configureAusf w =
      ((configureAusfService (applyAusfConfig w).1 (applyAusfConfig w).2).1,
        { restarted :=
            (configureAusfService (applyAusfConfig w).1
              (applyAusfConfig w).2).2.1,
          layerAdded :=
            (configureAusfService (applyAusfConfig w).1
              (applyAusfConfig w).2).2.2,
          status := some Status.active }) := by
  unfold configureAusf
  rw [h]

theorem configureAusf_certificate (w : World) :
    (configureAusf w).1.container.certificate =
      w.container.certificate := by
  unfold configureAusf
  split
  · rfl
  · rfl
  · dsimp only
    rw [configureAusfService_certificate, applyAusfConfig_certificate]

theorem onCertificateAvailable_match (w : World) (ecsr ecert : String)
    (h : w.container.canConnect = true) (hcsr : w.container.csr = some ecsr) :
    onCertificateAvailable w ecsr ecert =
      configureAusf
        { w with container :=
            { w.container with certificate := some ecert } } := by
  have hstored : csrIsStored w.container = true := by
    unfold csrIsStored; rw [hcsr]; rfl
  unfold onCertificateAvailable
  rw [h, hstored]
  simp [hcsr]

theorem onCertificateAvailable_mismatch (w : World) (ecsr ecert : String)
    (h : w.container.canConnect = true) (hcsr : w.container.csr ≠ some ecsr) :
    onCertificateAvailable w ecsr ecert = (w, {}) := by
  unfold onCertificateAvailable
  rw [h]
  by_cases hstored : csrIsStored w.container = true
  · rw [hstored]
    have hne : some ecsr ≠ w.container.csr := fun he => hcsr he.symm
    simp [hne]
  · simp [hstored]

theorem deletePrivateKey_privateKey (c : ContainerState) :
    (deletePrivateKey c).privateKey = none := by
  unfold deletePrivateKey privateKeyIsStored
  split
  · rename_i hc
    simpa using hc
  · rfl

theorem deleteCsr_csr (c : ContainerState) :
    (deleteCsr c).csr = none := by
  unfold deleteCsr csrIsStored
  split
  · rename_i hc
    simpa using hc
  · rfl

theorem deleteCertificate_certificate (c : ContainerState) :
    (deleteCertificate c).certificate = none := by
  unfold deleteCertificate certificateIsStored
  split
  · rename_i hc
    simpa using hc
  · rfl

theorem deleteCsr_privateKey (c : ContainerState) :
    (deleteCsr c).privateKey = c.privateKey := by
  unfold deleteCsr
  split <;> rfl

theorem deleteCertificate_privateKey (c : ContainerState) :
    (deleteCertificate c).privateKey = c.privateKey := by
  unfold deleteCertificate
  split <;> rfl

theorem deleteCertificate_csr (c : ContainerState) :
    (deleteCertificate c).csr = c.csr := by
  unfold deleteCertificate
  split <;> rfl

theorem deletePrivateKey_of_none (c : ContainerState)
    (h : c.privateKey = none) : deletePrivateKey c = c := by
  unfold deletePrivateKey privateKeyIsStored
  rw [h]
  simp

theorem deleteCsr_of_none (c : ContainerState)
    (h : c.csr = none) : deleteCsr c = c := by
  unfold deleteCsr csrIsStored
  rw [h]
  simp

theorem deleteCertificate_of_none (c : ContainerState)
    (h : c.certificate = none) : deleteCertificate c = c := by
  unfold deleteCertificate certificateIsStored
  rw [h]
  simp

theorem applyAusfConfig_of_matches (w : World)
    (h : configFileContentMatches w.container (desiredConfigContent w) =
      true) :
    applyAusfConfig w = (w, false) := by
  unfold applyAusfConfig
  dsimp only
  rw [if_neg (not_not_intro h)]

/-- C1: on every reconciliation pass that reaches the service-supervision step
(the precondition gate proceeds), the service is restarted if and only if the
newly computed service specification differs from the currently applied one,
or the configuration-file reconciliation reported a change. -/
theorem restart_iff_spec_changed_or_config_changed (w : World)
    (h : checkReadiness w = GateResult.proceed) :
    (configureAusf w).2.restarted = true ↔
      (w.container.planServices ≠ some (pebbleLayerServices w.podIp) ∨
        (applyAusfConfig w).2 = true) := by
  rw [configureAusf_proceed w h]
  have hr := configureAusfService_restarted (applyAusfConfig w).1
    (applyAusfConfig w).2
  rw [applyAusfConfig_planServices, applyAusfConfig_podIp] at hr
  exact hr

/-- Witness for C1 at a concrete fully ready world. -/
theorem restart_iff_spec_changed_or_config_changed_witness :
    (configureAusf readyWorld).2.restarted = true ↔
      (readyWorld.container.planServices ≠
          some (pebbleLayerServices readyWorld.podIp) ∨
        (applyAusfConfig readyWorld).2 = true) :=
  restart_iff_spec_changed_or_config_changed readyWorld (by decide)

/-- C2: with the container reachable, a certificate-available event stores its
certificate if and only if the event's CSR equals the stored CSR exactly; on
any mismatch (including no stored CSR) the whole state is unchanged and the
event is not deferred. -/
theorem certificate_available_applied_iff_csr_matches (w : World)
    (ecsr ecert : String) (h : w.container.canConnect = true) :
    ((onCertificateAvailable w ecsr ecert).1.container.certificate =
        if w.container.csr = some ecsr then some ecert
        else w.container.certificate)
    ∧ (w.container.csr ≠ some ecsr →
        onCertificateAvailable w ecsr ecert = (w, {})) := by
  constructor
  · by_cases hcsr : w.container.csr = some ecsr
    · rw [if_pos hcsr, onCertificateAvailable_match w ecsr ecert h hcsr,
        configureAusf_certificate]
    · rw [if_neg hcsr, onCertificateAvailable_mismatch w ecsr ecert h hcsr]
  · intro hne
    exact onCertificateAvailable_mismatch w ecsr ecert h hne

/-- Witness for C2 at a concrete world with stored CSR `"csr-data"` and a
matching event. -/
theorem certificate_available_applied_iff_csr_matches_witness :
    ((onCertificateAvailable csrStoredWorld "csr-data"
        "cert-pem").1.container.certificate =
        if csrStoredWorld.container.csr = some "csr-data" then some "cert-pem"
        else csrStoredWorld.container.certificate)
    ∧ (csrStoredWorld.container.csr ≠ some "csr-data" →
        onCertificateAvailable csrStoredWorld "csr-data" "cert-pem" =
          (csrStoredWorld, {})) :=
  certificate_available_applied_iff_csr_matches csrStoredWorld "csr-data"
    "cert-pem" (by decide)

/-- C3: when the container is unreachable, the gate returns `DeferRetry` after
evaluating only the container-reachability check, whatever the other readiness
facts are. -/
theorem gate_unreachable_short_circuit (w : World)
    (h : w.container.canConnect = false) :
    checkReadinessTrace w =
      (GateResult.deferRetry "Waiting for container to start",
        [Check.containerReachable]) := by
  unfold checkReadinessTrace
  rw [h]
  simp

/-- Witness for C3 at a world whose container is unreachable and whose NRF
relation is also missing. -/
theorem gate_unreachable_short_circuit_witness :
    unreachableWorld.container.canConnect = false ∧
    unreachableWorld.nrfRelationCreated = false ∧
    checkReadinessTrace unreachableWorld =
      (GateResult.deferRetry "Waiting for container to start",
        [Check.containerReachable]) :=
  ⟨rfl, rfl, gate_unreachable_short_circuit unreachableWorld rfl⟩

/-- C4: a `DeferRetry` gate outcome defers the event and sets a waiting
status, a `Block` outcome sets a blocked status without deferring, and in both
cases the pass stops with the world unchanged (no config write, no service
change). -/
theorem gate_failure_stops_pass (w : World) (msg : String) :
    (checkReadiness w = GateResult.deferRetry msg →
      configureAusf w =
        (w, { deferred := true, status := some (Status.waiting msg) }))
    ∧ (checkReadiness w = GateResult.block msg →
      configureAusf w = (w, { status := some (Status.blocked msg) })) := by
  constructor <;> intro h <;> unfold configureAusf <;> rw [h]

/-- Witness for C4: a world waiting on NRF data is deferred with a waiting
status; a world missing the relation is blocked without deferring. -/
theorem gate_failure_stops_pass_witness :
    configureAusf noUrlWorld =
      (noUrlWorld,
        { deferred := true,
          status :=
            some (Status.waiting "Waiting for NRF data to be available") })
    ∧ configureAusf noRelationWorld =
      (noRelationWorld,
        { status := some (Status.blocked "Waiting for fiveg_nrf relation") }) :=
  ⟨(gate_failure_stops_pass noUrlWorld
      "Waiting for NRF data to be available").1 (by decide),
   (gate_failure_stops_pass noRelationWorld
      "Waiting for fiveg_nrf relation").2 (by decide)⟩

/-- C5 (failing input): with the container reachable and no certificate
stored, `_on_certificate_expiring` calls `_get_stored_certificate`, whose
`pull` raises an uncaught `PathError`; the event is not ignored with a
diagnostic — the handler errors. -/
theorem certificate_expiring_unstored_raises :
    onCertificateExpiring readyWorld "certificate-pem" "fresh-csr" =
      Except.error () := rfl

/-- C6: on every pass that reaches the service-supervision step, the Pebble
plan afterwards holds exactly the newly computed service specification for the
`ausf` service, whether or not a restart was performed. -/
theorem service_spec_applied_to_plan (w : World)
    (h : checkReadiness w = GateResult.proceed) :
    (configureAusf w).1.container.planServices =
      some (pebbleLayerServices w.podIp) := by
  rw [configureAusf_proceed w h]
  dsimp only
  rw [configureAusfService_planServices_post, applyAusfConfig_podIp]

/-- Witness for C6 at a concrete fully ready world. -/
theorem service_spec_applied_to_plan_witness :
    (configureAusf readyWorld).1.container.planServices =
      some (pebbleLayerServices readyWorld.podIp) :=
  service_spec_applied_to_plan readyWorld (by decide)

/-- C7: configuration reconciliation reports a change exactly when the stored
file (absent counting as no match) differs from the newly rendered content;
afterwards the stored file is the rendered content; when nothing changed no
write happens; and re-running with unchanged inputs reports no change and
performs no write. -/
theorem config_reconcile_changed_iff_idempotent (w : World) :
    ((applyAusfConfig w).2 = true ↔
      w.container.configFile ≠ some (desiredConfigContent w))
    ∧ (applyAusfConfig w).1.container.configFile =
        some (desiredConfigContent w)
    ∧ ((applyAusfConfig w).2 = false → (applyAusfConfig w).1 = w)
    ∧ applyAusfConfig (applyAusfConfig w).1 = ((applyAusfConfig w).1, false) := by
  refine ⟨?_, applyAusfConfig_configFile_post w, ?_, ?_⟩
  · unfold applyAusfConfig
    dsimp only
    split
    · rename_i hc
      rw [configFileContentMatches_iff] at hc
      simpa using hc
    · rename_i hc
      rw [not_not, configFileContentMatches_iff] at hc
      simp [hc]
  · unfold applyAusfConfig
    dsimp only
    split
    · intro hfalse
      cases hfalse
    · intro _
      rfl
  · exact applyAusfConfig_of_matches _ (by
      rw [configFileContentMatches_iff, desiredConfigContent_applyAusfConfig,
        applyAusfConfig_configFile_post])

/-- Witness for C7 at a concrete fully ready world with no stored file. -/
theorem config_reconcile_changed_iff_idempotent_witness :
    ((applyAusfConfig readyWorld).2 = true ↔
      readyWorld.container.configFile ≠
        some (desiredConfigContent readyWorld))
    ∧ (applyAusfConfig readyWorld).1.container.configFile =
        some (desiredConfigContent readyWorld)
    ∧ ((applyAusfConfig readyWorld).2 = false →
        (applyAusfConfig readyWorld).1 = readyWorld)
    ∧ applyAusfConfig (applyAusfConfig readyWorld).1 =
        ((applyAusfConfig readyWorld).1, false) :=
  config_reconcile_changed_iff_idempotent readyWorld

/-- C8 fails as stated: with the container reachable and a private key already
stored, the relation-created handler is not a no-op — it overwrites the stored
key with the freshly generated one. -/
theorem relation_created_overwrites_key_cex :
    keyStoredWorld.container.canConnect = true ∧
    keyStoredWorld.container.privateKey = some "key-one" ∧
    (onCertificatesRelationCreated keyStoredWorld
        "key-two").1.container.privateKey = some "key-two" ∧
    (onCertificatesRelationCreated keyStoredWorld "key-two").1 ≠
      keyStoredWorld := by
  refine ⟨rfl, rfl, rfl, ?_⟩
  decide

/-- C8 amended: when the container is reachable, the relation-created handler
always generates and stores a fresh private key, replacing any stored one. -/
theorem relation_created_always_stores_fresh_key (w : World)
    (freshKey : String) (h : w.container.canConnect = true) :
    onCertificatesRelationCreated w freshKey =
      ({ w with container :=
          { w.container with privateKey := some freshKey } }, {}) := by
  unfold onCertificatesRelationCreated
  rw [h]
  simp

/-- Witness for the amended C8 at a world with a stored key. -/
theorem relation_created_always_stores_fresh_key_witness :
    onCertificatesRelationCreated keyStoredWorld "key-two" =
      ({ keyStoredWorld with container :=
          { keyStoredWorld.container with privateKey := some "key-two" } },
        {}) :=
  relation_created_always_stores_fresh_key keyStoredWorld "key-two" rfl

/-- C9: with the container reachable, relation-broken teardown deletes the
private key, the CSR and the certificate, then runs a full reconciliation
pass on the wiped world; each deletion is a no-op on the wiped (artifact-free)
container, and the configuration for the wiped world is rendered with the
non-secure `http` scheme. -/
theorem relation_broken_teardown (w : World)
    (h : w.container.canConnect = true) :
    onCertificatesRelationBroken w = configureAusf (teardownWorld w)
    ∧ (teardownWorld w).container.privateKey = none
    ∧ (teardownWorld w).container.csr = none
    ∧ (teardownWorld w).container.certificate = none
    ∧ deletePrivateKey (teardownWorld w).container =
        (teardownWorld w).container
    ∧ deleteCsr (teardownWorld w).container = (teardownWorld w).container
    ∧ deleteCertificate (teardownWorld w).container =
        (teardownWorld w).container
    ∧ configScheme (teardownWorld w).container = "http"
    ∧ desiredConfigContent (teardownWorld w) =
        renderConfigFile AUSF_GROUP_ID ((teardownWorld w).podIp.getD "")
          (teardownWorld w).nrfUrl SBI_PORT "http" := by
  have hkey : (teardownWorld w).container.privateKey = none := by
    unfold teardownWorld
    rw [deleteCertificate_privateKey, deleteCsr_privateKey,
      deletePrivateKey_privateKey]
  have hcsr : (teardownWorld w).container.csr = none := by
    unfold teardownWorld
    rw [deleteCertificate_csr, deleteCsr_csr]
  have hcert : (teardownWorld w).container.certificate = none := by
    unfold teardownWorld
    rw [deleteCertificate_certificate]
  have hscheme : configScheme (teardownWorld w).container = "http" := by
    unfold configScheme certificateIsStored
    rw [hcert]
    rfl
  refine ⟨?_, hkey, hcsr, hcert, deletePrivateKey_of_none _ hkey,
    deleteCsr_of_none _ hcsr, deleteCertificate_of_none _ hcert, hscheme, ?_⟩
  · unfold onCertificatesRelationBroken teardownWorld
    rw [h]
    simp
  · unfold desiredConfigContent
    rw [hscheme]

/-- Witness for C9 at a world with all three TLS artifacts stored. -/
theorem relation_broken_teardown_witness :
    onCertificatesRelationBroken fullTlsWorld =
      configureAusf (teardownWorld fullTlsWorld)
    ∧ (teardownWorld fullTlsWorld).container.privateKey = none
    ∧ (teardownWorld fullTlsWorld).container.csr = none
    ∧ (teardownWorld fullTlsWorld).container.certificate = none
    ∧ deletePrivateKey (teardownWorld fullTlsWorld).container =
        (teardownWorld fullTlsWorld).container
    ∧ deleteCsr (teardownWorld fullTlsWorld).container =
        (teardownWorld fullTlsWorld).container
    ∧ deleteCertificate (teardownWorld fullTlsWorld).container =
        (teardownWorld fullTlsWorld).container
    ∧ configScheme (teardownWorld fullTlsWorld).container = "http"
    ∧ desiredConfigContent (teardownWorld fullTlsWorld) =
        renderConfigFile AUSF_GROUP_ID
          ((teardownWorld fullTlsWorld).podIp.getD "")
          (teardownWorld fullTlsWorld).nrfUrl SBI_PORT "http" :=
  relation_broken_teardown fullTlsWorld rfl

/-- C10: requesting a new certificate sends the raw generated CSR to the
certificate authority but stores its whitespace-stripped form; hence for a
generated CSR carrying leading or trailing whitespace the stored CSR differs
from the one in the outstanding request, and a certificate-available event
echoing the request byte-for-byte is ignored. -/
theorem whitespace_csr_request_never_applied (w : World)
    (freshCsr eventCert : String)
    (h1 : w.container.canConnect = true)
    (h2 : pyStrip freshCsr ≠ freshCsr) :
    (requestNewCertificate w freshCsr).2.certRequests = [freshCsr]
    ∧ (requestNewCertificate w freshCsr).1.container.csr =
        some (pyStrip freshCsr)
    ∧ (requestNewCertificate w freshCsr).1.container.csr ≠ some freshCsr
    ∧ onCertificateAvailable (requestNewCertificate w freshCsr).1 freshCsr
        eventCert = ((requestNewCertificate w freshCsr).1, {}) := by
  have hne : (requestNewCertificate w freshCsr).1.container.csr ≠
      some freshCsr := by
    show some (pyStrip freshCsr) ≠ some freshCsr
    simpa using h2
  exact ⟨rfl, rfl, hne,
    onCertificateAvailable_mismatch _ freshCsr eventCert h1 hne⟩

/-- Witness for C10 with the concrete CSR `" line-one\n"`. -/
theorem whitespace_csr_request_never_applied_witness :
    (requestNewCertificate readyWorld " line-one\n").2.certRequests =
        [" line-one\n"]
    ∧ (requestNewCertificate readyWorld " line-one\n").1.container.csr =
        some (pyStrip " line-one\n")
    ∧ (requestNewCertificate readyWorld " line-one\n").1.container.csr ≠
        some " line-one\n"
    ∧ onCertificateAvailable (requestNewCertificate readyWorld " line-one\n").1
        " line-one\n" "cert-pem" =
        ((requestNewCertificate readyWorld " line-one\n").1, {}) :=
  whitespace_csr_request_never_applied readyWorld " line-one\n" "cert-pem"
    rfl (by decide)

end AusfCharm
